import Mathlib

/-!
Verification of the rocket_csrf CSRF-protection fairing (src/csrf_fairing.rs).

The development shallowly embeds the fairing's request and response hooks:
HTTP methods, requests, responses and the fairing configuration become Lean
structures; the cryptographic collaborator (the csrf crate engine together
with the base64 codecs and the host's percent encoder) is an abstract record
of functions, exactly as the specification treats it.  The path-template
engine (path.rs) and the form-argument scanner (utils.rs) are sibling modules
of the crate whose sources are not part of src/; they are modelled from the
specification where so marked.  Rust strings are embedded as Lean strings,
with the character-level operations (splitting, prefix test) given by
structural recursion over the underlying character list.
-/

namespace RocketCsrf

/-- HTTP methods of the host framework (rocket::http::Method). -/
inductive Method
  | get | put | post | delete | options | head | trace | connect | patch
deriving DecidableEq

/-- Well-known cookie name of the external csrf crate (CSRF_COOKIE_NAME).
The concrete value is irrelevant to every property proved below. -/
def CSRF_COOKIE_NAME : String := "csrf"

/-- Well-known form field name of the external csrf crate (CSRF_FORM_FIELD). -/
def CSRF_FORM_FIELD : String := "csrf-token"

/-- Split a character list on a separator character; embeds Rust's
str::split for a one-character pattern (an empty input yields one empty
piece, a trailing separator yields a trailing empty piece). -/
def splitChars (sep : Char) : List Char → List (List Char)
  | [] => [[]]
  | c :: rest =>
    let r := splitChars sep rest
    if c = sep then [] :: r
    else
      match r with
      | h :: t => (c :: h) :: t
      | [] => [[c]]

/-- Split a string on a separator character. -/
def splitString (sep : Char) (s : String) : List String :=
  (splitChars sep s.data).map (fun l => ⟨l⟩)

/-- Embeds Rust's str::starts_with on string arguments. -/
def strStartsWith (s p : String) : Bool :=
  p.data.isPrefixOf s.data

/-- Modelled from the spec: utils::parse_args (module utils.rs is not under
src/).  The body prefix is a form-encoded string; it is split into
key=value arguments separated by the character &, each argument being cut
at its first = sign; pieces without an = sign carry no key/value pair. -/
def parse_args (s : String) : List (String × String) :=
  (splitString '&' s).filterMap fun kv =>
    match splitChars '=' kv.data with
    | [_] => none
    | k :: rest => some (⟨k⟩, String.intercalate "=" (rest.map (fun l => (⟨l⟩ : String))))
    | [] => none

/-- Abstract external collaborators of the fairing: the base64 codecs of the
data_encoding crate, the AesGcmCsrfProtection engine of the csrf crate
(parse_cookie, parse_token, verify_token_pair), and the host's
Uri::percent_encode.  T and C are the engine's token and cookie types. -/
structure Externals (T C : Type) where
  base64_decode : String → Option (List Nat)
  base64url_nopad_decode : String → Option (List Nat)
  parse_cookie : List Nat → Option C
  parse_token : List Nat → Option T
  verify_token_pair : T → C → Bool
  percent_encode : String → String

/-- Incoming request view: method, URI rendered as a string, and the cookie
jar as name/value pairs. -/
structure Request where
  method : Method
  uri : String
  cookies : List (String × String)
deriving DecidableEq

/-- Peekable body prefix of the incoming request.  The field holds the
result of from_utf8 on the peeked bytes: none embeds a prefix that is not
valid UTF-8, some s a prefix decoding to s. -/
structure Data where
  peek : Option String
deriving DecidableEq

/-- Cookie extraction chain of on_request (lines 301-305): look the CSRF
cookie up in the jar, base64-decode its value, hand the bytes to the
engine's parse_cookie. -/
def cookieOf {T C : Type} (ext : Externals T C) (request : Request) : Option C :=
  ((request.cookies.lookup CSRF_COOKIE_NAME).bind
      (fun v => ext.base64_decode v)).bind
    (fun bytes => ext.parse_cookie bytes)

/-- Token extraction chain of on_request (lines 309-313): scan the peeked
body prefix (an invalid UTF-8 prefix is replaced by the empty string) for
form fields named CSRF_FORM_FIELD, base64url-decode and parse each
candidate, and keep the first success. -/
def tokenOf {T C : Type} (ext : Externals T C) (d : Data) : Option T :=
  ((((parse_args (d.peek.getD "")).filter
        (fun kv => kv.fst == CSRF_FORM_FIELD)).filterMap
      (fun kv => ext.base64url_nopad_decode kv.snd)).filterMap
    (fun bytes => ext.parse_token bytes)).head?

/-- Modelled from the spec: a segment of a path template (module path.rs is
not under src/) is either a literal string or a named capture. -/
inductive Segment
  | literal (s : String)
  | capture (name : String)
deriving DecidableEq

/-- Modelled from the spec: a pattern segment exactly of the shape
enclosed-in-angle-brackets becomes a capture of the enclosed name; every
other segment is a literal. -/
def parseSegment (s : String) : Segment :=
  match s.data with
  | '<' :: rest =>
    if rest.getLast? = some '>' then Segment.capture ⟨rest.dropLast⟩
    else Segment.literal s
  | _ => Segment.literal s

/-- Modelled from the spec: a compiled path template is an ordered sequence
of segments. -/
structure Path where
  segments : List Segment
deriving DecidableEq

/-- Modelled from the spec: compile splits the pattern on the slash
character and classifies each piece (Path::from in the source). -/
def Path.compile (pattern : String) : Path :=
  ⟨(splitString '/' pattern).map parseSegment⟩

/-- Modelled from the spec: positional matching of template segments
against concrete path segments.  Segment counts must agree; a literal
segment must equal the concrete segment exactly; a capture segment accepts
any non-empty string and records it. -/
def matchSegments : List Segment → List String → Option (List (String × String))
  | [], [] => some []
  | Segment.literal s :: ts, c :: cs =>
    if s = c then matchSegments ts cs else none
  | Segment.capture n :: ts, c :: cs =>
    if c = "" then none
    else (matchSegments ts cs).map (fun caps => (n, c) :: caps)
  | _, _ => none

/-- Modelled from the spec: extract matches a concrete path against a
template and returns the capture set on success. -/
def Path.extract (p : Path) (concrete : String) : Option (List (String × String)) :=
  matchSegments p.segments (splitString '/' concrete)

/-- Modelled from the spec: substitution of one segment under a capture
set; a capture's looked-up value is percent-encoded for path safety (pe is
the encoder), and an absent capture name makes substitution fail. -/
def Segment.subst (pe : String → String) (caps : List (String × String)) :
    Segment → Option String
  | Segment.literal s => some s
  | Segment.capture n => (caps.lookup n).map pe

/-- Modelled from the spec: substitution across a segment sequence, failing
as soon as one segment fails. -/
def substSegments (pe : String → String) (caps : List (String × String)) :
    List Segment → Option (List String)
  | [] => some []
  | s :: rest =>
    (s.subst pe caps).bind
      (fun v => (substSegments pe caps rest).map (fun vs => v :: vs))

/-- Modelled from the spec: generate rebuilds a concrete path from a
template and a capture set (Path::map in the source), or fails when a
required capture name is absent. -/
def Path.map (p : Path) (pe : String → String) (caps : List (String × String)) :
    Option String :=
  (substSegments pe caps p.segments).map (fun parts => String.intercalate "/" parts)

/-- Configuration record of the finished fairing (struct CsrfFairing).  The
source field auto_insert_disable_prefix is spelled with a final s here. -/
structure CsrfFairing where
  duration : Int
  default_target : Path × Method
  exceptions : List (Path × Path × Method)
  secret : List Nat
  auto_insert : Bool
  auto_insert_disable_prefixes : List String
  auto_insert_max_size : Nat
deriving DecidableEq

/-- Builder record (struct CsrfFairingBuilder). -/
structure CsrfFairingBuilder where
  duration : Int
  default_target : String × Method
  exceptions : List (String × String × Method)
  secret : Option (List Nat)
  auto_insert : Bool
  auto_insert_disable_prefixes : List String
  auto_insert_max_size : Nat
deriving DecidableEq

/-- Default builder configuration (CsrfFairingBuilder::new). -/
def CsrfFairingBuilder.new : CsrfFairingBuilder where
  duration := 60 * 60
  default_target := ("/", Method.get)
  exceptions := []
  secret := none
  auto_insert := true
  auto_insert_disable_prefixes := []
  auto_insert_max_size := 16 * 1024

/-- Builder finalization (CsrfFairingBuilder::finalize).  The secret falls
back to the environment-sourced or freshly generated value, passed here as
an explicit argument since environment access is outside the core; pe is
the host's percent encoder used by template generation.  The default
target is validated by probing its generate operation with the synthetic
capture set binding only the reserved name uri; on probe failure
finalization fails. -/
def CsrfFairingBuilder.finalize (b : CsrfFairingBuilder) (pe : String → String)
    (envOrRandomSecret : List Nat) : Except Unit CsrfFairing :=
  let secret := b.secret.getD envOrRandomSecret
  let default_target := Path.compile b.default_target.fst
  if (default_target.map pe [("uri", "")]).isNone then
    Except.error ()
  else
    Except.ok
      { duration := b.duration
        default_target := (default_target, b.default_target.snd)
        exceptions := b.exceptions.map
          (fun e => (Path.compile e.fst, Path.compile e.snd.fst, e.snd.snd))
        secret := secret
        auto_insert := b.auto_insert
        auto_insert_disable_prefixes := b.auto_insert_disable_prefixes
        auto_insert_max_size := b.auto_insert_max_size }

/-- Exception scan of on_request (lines 325-333): rules are tried in list
order; the first rule whose source template extracts a capture set from
the request URI and whose destination template generates a path from that
capture set yields the rewrite; a rule whose destination generation fails
is skipped like a non-matching rule. -/
def routeExceptions (pe : String → String) (rules : List (Path × Path × Method))
    (uri : String) : Option (String × Method) :=
  match rules with
  | [] => none
  | (src, dst, m) :: rest =>
    match Path.extract src uri with
    | some param =>
      match Path.map dst pe param with
      | some destination => some (destination, m)
      | none => routeExceptions pe rest uri
    | none => routeExceptions pe rest uri

/-- Outcome of on_request.  safe and passedThrough record the two early
returns that leave the request untouched (neither set_uri nor set_method is
invoked on those paths); exceptionRewrite and defaultRewrite record the
URI and method installed by set_uri/set_method.  The defaultRewrite URI is
an Option because the source unwraps the default-target generation there;
a none value embeds the panicking unwrap. -/
inductive Decision
  | safe
  | passedThrough
  | exceptionRewrite (uri : String) (m : Method)
  | defaultRewrite (uri : Option String) (m : Method)
deriving DecidableEq

/-- Result of on_request: the decision together with effect flags recording
whether the CsrfToken request guard was invoked (forcing regeneration of a
fresh token/cookie pair) and whether cookie/token verification was
performed. -/
structure OnRequestResult where
  decision : Decision
  guardInvoked : Bool
  verificationPerformed : Bool
deriving DecidableEq

/-- Safe methods: the first match arm of on_request (line 289). -/
def isSafeMethod : Method → Bool
  | Method.get | Method.head | Method.connect | Method.options => true
  | _ => false

/-- Nested conditional of on_request lines 315-321: verification succeeds
exactly when a token and a cookie were both obtained and the engine's
pairing predicate accepts them. -/
def verifiedPair {T C : Type} (ext : Externals T C) (token : Option T)
    (cookie : Option C) : Bool :=
  match token with
  | some t =>
    match cookie with
    | some c => ext.verify_token_pair t c
    | none => false
  | none => false

/-- Request hook (CsrfFairing::on_request).  Safe methods return at once
after invoking the token guard; other methods run the verification chain
and, on failure, the exception scan and the default-target rewrite. -/
def onRequest {T C : Type} (f : CsrfFairing) (ext : Externals T C)
    (request : Request) (d : Data) : OnRequestResult :=
  if isSafeMethod request.method then
    { decision := Decision.safe, guardInvoked := true, verificationPerformed := false }
  else
    if verifiedPair ext (tokenOf ext d) (cookieOf ext request) then
      { decision := Decision.passedThrough, guardInvoked := true,
        verificationPerformed := true }
    else
      match routeExceptions ext.percent_encode f.exceptions request.uri with
      | some (destination, m) =>
        { decision := Decision.exceptionRewrite destination m, guardInvoked := true,
          verificationPerformed := true }
      | none =>
        { decision :=
            Decision.defaultRewrite
              (Path.map f.default_target.fst ext.percent_encode
                [("uri", ext.percent_encode request.uri)])
              f.default_target.snd,
          guardInvoked := true, verificationPerformed := true }

/-- Content type of the host response; only its is_html test is observed by
the fairing. -/
structure ContentType where
  isHtml : Bool
deriving DecidableEq

/-- Response body: either sized with a declared length (rocket's
Body::Sized) or an open-ended stream; the carried byte list is the
extensional content read from the underlying reader. -/
inductive Body
  | sized (bytes : List Nat) (len : Nat)
  | streamed (bytes : List Nat)
deriving DecidableEq

/-- Outgoing response view: optional content type and optional body. -/
structure Response where
  content_type : Option ContentType
  body : Option Body
deriving DecidableEq

/-- Response hook (CsrfFairing::on_response).  inject is the CsrfProxy
transform of csrf_proxy.rs applied to a token and the upstream bytes,
taken abstractly; guardToken is the outcome of the CsrfToken request
guard.  Non-HTML responses, responses on an excluded prefix, a failing
guard and an absent body are left unchanged; a sized body within the
threshold is replaced by the fully materialized transform, any other body
by a stream wrapping the transform. -/
def onResponse (f : CsrfFairing) (inject : String → List Nat → List Nat)
    (guardToken : Option String) (request : Request) (response : Response) :
    Response :=
  if (match response.content_type with
      | some ct => !ct.isHtml
      | none => false) then
    response
  else if f.auto_insert_disable_prefixes.any
      (fun pre => strStartsWith request.uri pre) then
    response
  else
    match guardToken with
    | none => response
    | some token =>
      match response.body with
      | none => response
      | some (Body.sized bytes len) =>
        if len ≤ f.auto_insert_max_size then
          { response with
            body := some (Body.sized (inject token bytes) (inject token bytes).length) }
        else
          { response with body := some (Body.streamed (inject token bytes)) }
      | some (Body.streamed bytes) =>
        { response with body := some (Body.streamed (inject token bytes)) }

/-- Concrete collaborator instance over Nat tokens and cookies, used by the
closed evaluation theorems below. -/
def natExt : Externals Nat Nat where
  base64_decode := fun s => some [s.data.length]
  base64url_nopad_decode := fun s => some [s.data.length]
  parse_cookie := fun bytes => bytes.head?
  parse_token := fun bytes => bytes.head?
  verify_token_pair := fun t c => t == c
  percent_encode := fun s => s

/-- Concrete fairing with an empty exception list. -/
def testFairing : CsrfFairing where
  duration := 3600
  default_target := (Path.compile "/", Method.get)
  exceptions := []
  secret := []
  auto_insert := true
  auto_insert_disable_prefixes := []
  auto_insert_max_size := 16 * 1024

/-- Concrete fairing whose default target carries the reserved uri capture. -/
def errFairing : CsrfFairing :=
  { testFairing with default_target := (Path.compile "/err/<uri>", Method.get) }

/-- Concrete fairing with one excluded path prefix. -/
def apiFairing : CsrfFairing :=
  { testFairing with auto_insert_disable_prefixes := ["/api"] }

/-- Verification outcome of the nested conditional, characterized: it is
true exactly when both chains produced values and the engine paired them. -/
theorem verifiedPair_eq_true_iff {T C : Type} (ext : Externals T C) (t : Option T)
    (c : Option C) :
    verifiedPair ext t c = true ↔
      ∃ tk ck, t = some tk ∧ c = some ck ∧ ext.verify_token_pair tk ck = true := by
  cases t <;> cases c <;> simp [verifiedPair]

/-- Decision of on_request on a non-safe method, characterized by the
verification outcome and the exception scan. -/
theorem onRequest_decision_eq {T C : Type} (f : CsrfFairing) (ext : Externals T C)
    (request : Request) (d : Data) (h : isSafeMethod request.method = false) :
    (onRequest f ext request d).decision =
      if verifiedPair ext (tokenOf ext d) (cookieOf ext request) then
        Decision.passedThrough
      else
        match routeExceptions ext.percent_encode f.exceptions request.uri with
        | some (destination, m) => Decision.exceptionRewrite destination m
        | none =>
          Decision.defaultRewrite
            (Path.map f.default_target.fst ext.percent_encode
              [("uri", ext.percent_encode request.uri)])
            f.default_target.snd := by
  cases hv : verifiedPair ext (tokenOf ext d) (cookieOf ext request) with
  | true => simp [onRequest, h, hv]
  | false =>
    rcases hr : routeExceptions ext.percent_encode f.exceptions request.uri with _ | ⟨dest, m⟩ <;>
      simp [onRequest, h, hv, hr]

/-- C1: for every request whose method is outside the safe set, on_request
passes the request through unchanged (the early return that mutates
neither URI nor method) exactly when the CSRF cookie is present and
parses, a token form field in the peeked body prefix decodes and parses,
and the engine's pairing predicate accepts the pair; in every other
combination the decision reroutes the request, through an exception
rewrite or the default-target rewrite. -/
theorem onRequest_passedThrough_iff_verified {T C : Type} (f : CsrfFairing)
    (ext : Externals T C) (request : Request) (d : Data)
    (h : isSafeMethod request.method = false) :
    ((onRequest f ext request d).decision = Decision.passedThrough ↔
      ∃ t c, tokenOf ext d = some t ∧ cookieOf ext request = some c ∧
        ext.verify_token_pair t c = true) ∧
    ((onRequest f ext request d).decision ≠ Decision.passedThrough →
      (∃ u m, (onRequest f ext request d).decision = Decision.exceptionRewrite u m) ∨
      (∃ u m, (onRequest f ext request d).decision = Decision.defaultRewrite u m)) := by
  rw [onRequest_decision_eq f ext request d h]
  cases hv : verifiedPair ext (tokenOf ext d) (cookieOf ext request) with
  | true =>
    have hex := (verifiedPair_eq_true_iff ext (tokenOf ext d) (cookieOf ext request)).mp hv
    rw [if_pos rfl]
    exact ⟨iff_of_true rfl hex, fun hne => absurd rfl hne⟩
  | false =>
    have hnex : ¬ ∃ t c, tokenOf ext d = some t ∧ cookieOf ext request = some c ∧
        ext.verify_token_pair t c = true := by
      intro hcon
      have hcon2 := (verifiedPair_eq_true_iff ext (tokenOf ext d) (cookieOf ext request)).mpr hcon
      rw [hv] at hcon2
      exact Bool.false_ne_true hcon2
    rw [if_neg (by simp)]
    rcases hr : routeExceptions ext.percent_encode f.exceptions request.uri with _ | ⟨dest, m⟩
    · simp only [hr]
      exact ⟨iff_of_false (by simp) hnex, fun _ => Or.inr ⟨_, _, rfl⟩⟩
    · simp only [hr]
      exact ⟨iff_of_false (by simp) hnex, fun _ => Or.inl ⟨dest, m, rfl⟩⟩

/-- Witness for C1: a POST request carrying a matching cookie and token is
passed through. -/
theorem onRequest_passedThrough_iff_verified_witness :
    isSafeMethod Method.post = false ∧
    (onRequest testFairing natExt
        { method := Method.post, uri := "/x", cookies := [("csrf", "abc")] }
        { peek := some "csrf-token=abc" }).decision = Decision.passedThrough :=
  ⟨by decide,
    (onRequest_passedThrough_iff_verified testFairing natExt
        { method := Method.post, uri := "/x", cookies := [("csrf", "abc")] }
        { peek := some "csrf-token=abc" } (by decide)).1.mpr
      ⟨3, 3, by decide, by decide, by decide⟩⟩

/-- C2: the exception scan evaluates rules linearly in list order: the
first rule whose source extracts a capture set and whose destination
generates a path from it wins and evaluation stops; a rule whose
destination generation fails, like a rule whose source does not match, is
skipped and the scan continues with the remaining rules; and the incoming
method is never an input filter, since for any two non-safe methods the
whole request hook behaves identically. -/
theorem routeExceptions_first_match_wins (pe : String → String) (uri : String) :
    (∀ src dst m rest param destination,
        Path.extract src uri = some param →
        Path.map dst pe param = some destination →
        routeExceptions pe ((src, dst, m) :: rest) uri = some (destination, m)) ∧
    (∀ src dst m rest param,
        Path.extract src uri = some param →
        Path.map dst pe param = none →
        routeExceptions pe ((src, dst, m) :: rest) uri = routeExceptions pe rest uri) ∧
    (∀ src dst m rest,
        Path.extract src uri = none →
        routeExceptions pe ((src, dst, m) :: rest) uri = routeExceptions pe rest uri) ∧
    (∀ (T C : Type) (f : CsrfFairing) (ext : Externals T C) (request : Request)
        (d : Data) (m₁ m₂ : Method),
        isSafeMethod m₁ = false → isSafeMethod m₂ = false →
        onRequest f ext { request with method := m₁ } d =
          onRequest f ext { request with method := m₂ } d) := by
  refine ⟨?_, ?_, ?_, ?_⟩
  · intro src dst m rest param destination h1 h2
    simp [routeExceptions, h1, h2]
  · intro src dst m rest param h1 h2
    simp [routeExceptions, h1, h2]
  · intro src dst m rest h1
    simp [routeExceptions, h1]
  · intro T C f ext request d m₁ m₂ h1 h2
    simp [onRequest, h1, h2, tokenOf, cookieOf]

/-- Witness for C2: with two rules matching the same path, the first in
the list wins. -/
theorem routeExceptions_first_match_wins_witness :
    routeExceptions (fun s => s)
      [(Path.compile "/a/<x>", Path.compile "/safe/<x>", Method.get),
       (Path.compile "/a/<x>", Path.compile "/other", Method.get)] "/a/42" =
      some ("/safe/42", Method.get) :=
  (routeExceptions_first_match_wins (fun s => s) "/a/42").1
    (Path.compile "/a/<x>") (Path.compile "/safe/<x>") Method.get
    [(Path.compile "/a/<x>", Path.compile "/other", Method.get)]
    [("x", "42")] "/safe/42" (by decide) (by decide)

/-- C4: a request whose method is in the safe set returns at once: no
verification is performed and no rewrite happens, but the CsrfToken guard
is still invoked so that a fresh token/cookie pair is issued for the next
response. -/
theorem onRequest_safe_method {T C : Type} (f : CsrfFairing) (ext : Externals T C)
    (request : Request) (d : Data) (h : isSafeMethod request.method = true) :
    onRequest f ext request d =
      { decision := Decision.safe, guardInvoked := true,
        verificationPerformed := false } := by
  simp [onRequest, h]

/-- Witness for C4: a GET request reaches the safe outcome. -/
theorem onRequest_safe_method_witness :
    onRequest testFairing natExt { method := Method.get, uri := "/x", cookies := [] }
        { peek := none } =
      { decision := Decision.safe, guardInvoked := true,
        verificationPerformed := false } :=
  onRequest_safe_method testFairing natExt
    { method := Method.get, uri := "/x", cookies := [] } { peek := none } (by decide)

/-- C5: a rejected request matching no exception rule is rewritten to the
default target: the URI becomes the default-target template instantiated
with the capture set binding the reserved name uri to the percent-encoded
original URI, and the method becomes the configured default method. -/
theorem onRequest_default_target_rewrite {T C : Type} (f : CsrfFairing)
    (ext : Externals T C) (request : Request) (d : Data)
    (h : isSafeMethod request.method = false)
    (hv : verifiedPair ext (tokenOf ext d) (cookieOf ext request) = false)
    (hex : routeExceptions ext.percent_encode f.exceptions request.uri = none) :
    (onRequest f ext request d).decision =
      Decision.defaultRewrite
        (Path.map f.default_target.fst ext.percent_encode
          [("uri", ext.percent_encode request.uri)])
        f.default_target.snd := by
  rw [onRequest_decision_eq f ext request d h]
  rw [if_neg (by simp [hv])]
  simp only [hex]

/-- Witness for C5: a rejected POST with no exception rules lands on the
instantiated default target. -/
theorem onRequest_default_target_rewrite_witness :
    (onRequest errFairing natExt { method := Method.post, uri := "/x", cookies := [] }
        { peek := none }).decision =
      Decision.defaultRewrite (some "/err//x") Method.get := by
  rw [onRequest_default_target_rewrite errFairing natExt
      { method := Method.post, uri := "/x", cookies := [] } { peek := none }
      (by decide) (by decide) rfl]
  decide

/-- Token extraction yields nothing when the peeked prefix is not valid
UTF-8, since the prefix is then replaced by the empty string. -/
theorem tokenOf_peek_none {T C : Type} (ext : Externals T C) (d : Data)
    (hp : d.peek = none) : tokenOf ext d = none := by
  unfold tokenOf
  rw [hp]
  rfl

/-- C10: a non-safe request whose peeked body prefix is not valid UTF-8 is
never passed through as verified, regardless of any cookie: the decision
always reroutes the request. -/
theorem onRequest_invalid_utf8_rejected {T C : Type} (f : CsrfFairing)
    (ext : Externals T C) (request : Request) (d : Data)
    (h : isSafeMethod request.method = false) (hp : d.peek = none) :
    (onRequest f ext request d).decision ≠ Decision.passedThrough ∧
    ((∃ u m, (onRequest f ext request d).decision = Decision.exceptionRewrite u m) ∨
     (∃ u m, (onRequest f ext request d).decision = Decision.defaultRewrite u m)) := by
  have hv : verifiedPair ext (tokenOf ext d) (cookieOf ext request) = false := by
    rw [tokenOf_peek_none ext d hp]
    rfl
  rw [onRequest_decision_eq f ext request d h]
  rw [if_neg (by simp [hv])]
  rcases hr : routeExceptions ext.percent_encode f.exceptions request.uri with _ | ⟨dest, m⟩
  · simp only [hr]
    exact ⟨by simp, Or.inr ⟨_, _, rfl⟩⟩
  · simp only [hr]
    exact ⟨by simp, Or.inl ⟨dest, m, rfl⟩⟩

/-- Witness for C10: a POST with a valid cookie but an invalid UTF-8 body
prefix is rerouted. -/
theorem onRequest_invalid_utf8_rejected_witness :
    (onRequest testFairing natExt
        { method := Method.post, uri := "/x", cookies := [("csrf", "abc")] }
        { peek := none }).decision ≠ Decision.passedThrough ∧
    ((∃ u m, (onRequest testFairing natExt
        { method := Method.post, uri := "/x", cookies := [("csrf", "abc")] }
        { peek := none }).decision = Decision.exceptionRewrite u m) ∨
     (∃ u m, (onRequest testFairing natExt
        { method := Method.post, uri := "/x", cookies := [("csrf", "abc")] }
        { peek := none }).decision = Decision.defaultRewrite u m)) :=
  onRequest_invalid_utf8_rejected testFairing natExt
    { method := Method.post, uri := "/x", cookies := [("csrf", "abc")] }
    { peek := none } (by decide) rfl

/-- C3: for an HTML response passing the prefix gate, on_response applies
the size threshold: a sized body whose declared length is at most the
configured threshold is replaced by the fully materialized transform of
its bytes (with the buffer's own length as new declared length); a sized
body over the threshold, like a body of unknown length, is replaced by a
stream wrapping the transform; and the builder's default threshold is
16 KiB. -/
theorem onResponse_size_threshold_policy (f : CsrfFairing)
    (inject : String → List Nat → List Nat) (token : String)
    (request : Request) (response : Response)
    (hct : response.content_type = some { isHtml := true })
    (hpre : f.auto_insert_disable_prefixes.any
        (fun pre => strStartsWith request.uri pre) = false) :
    (∀ bytes len, response.body = some (Body.sized bytes len) →
        len ≤ f.auto_insert_max_size →
        onResponse f inject (some token) request response =
          { response with
            body := some (Body.sized (inject token bytes) (inject token bytes).length) }) ∧
    (∀ bytes len, response.body = some (Body.sized bytes len) →
        f.auto_insert_max_size < len →
        onResponse f inject (some token) request response =
          { response with body := some (Body.streamed (inject token bytes)) }) ∧
    (∀ bytes, response.body = some (Body.streamed bytes) →
        onResponse f inject (some token) request response =
          { response with body := some (Body.streamed (inject token bytes)) }) ∧
    CsrfFairingBuilder.new.auto_insert_max_size = 16 * 1024 := by
  refine ⟨?_, ?_, ?_, rfl⟩
  · intro bytes len hb hlen
    simp [onResponse, hct, hpre, hb, hlen]
  · intro bytes len hb hlen
    simp [onResponse, hct, hpre, hb, Nat.not_le.mpr hlen]
  · intro bytes hb
    simp [onResponse, hct, hpre, hb]

/-- Witness for C3: a 3-byte sized HTML body under the default threshold is
materialized eagerly. -/
theorem onResponse_size_threshold_policy_witness :
    onResponse testFairing (fun _ bytes => bytes ++ [9]) (some "T")
        { method := Method.get, uri := "/page", cookies := [] }
        { content_type := some { isHtml := true }, body := some (Body.sized [1, 2, 3] 3) } =
      { content_type := some { isHtml := true },
        body := some (Body.sized [1, 2, 3, 9] 4) } := by
  rw [(onResponse_size_threshold_policy testFairing (fun _ bytes => bytes ++ [9]) "T"
      { method := Method.get, uri := "/page", cookies := [] }
      { content_type := some { isHtml := true }, body := some (Body.sized [1, 2, 3] 3) }
      rfl (by decide)).1 [1, 2, 3] 3 rfl (by decide)]
  decide

/-- Substitution across a segment sequence fails whenever the sequence
holds a capture whose name the singleton uri capture set does not bind. -/
theorem substSegments_eq_none_of_capture_ne (pe : String → String) (v : String)
    (l : List Segment) (n : String) (hmem : Segment.capture n ∈ l) (hne : n ≠ "uri") :
    substSegments pe [("uri", v)] l = none := by
  induction l with
  | nil => cases hmem
  | cons s rest ih =>
    rcases List.mem_cons.mp hmem with heq | hmem2
    · rw [← heq]
      have hbeq : (n == "uri") = false := beq_eq_false_iff_ne.mpr hne
      simp [substSegments, Segment.subst, List.lookup, hbeq]
    · cases hs : Segment.subst pe [("uri", v)] s with
      | none => simp [substSegments, hs]
      | some val => simp [substSegments, hs, ih hmem2]

/-- C6: finalize validates the default-target template by probing its
generate operation with the synthetic capture set containing only the
reserved name uri, failing exactly when the probe fails; consequently a
builder whose default-target template references any capture name other
than uri never produces a fairing. -/
theorem finalize_invalid_default_target_fails (b : CsrfFairingBuilder)
    (pe : String → String) (s : List Nat)
    (h : ∃ n, Segment.capture n ∈ (Path.compile b.default_target.fst).segments ∧
        n ≠ "uri") :
    (∀ (b2 : CsrfFairingBuilder) (pe2 : String → String) (s2 : List Nat),
        CsrfFairingBuilder.finalize b2 pe2 s2 = Except.error () ↔
          Path.map (Path.compile b2.default_target.fst) pe2 [("uri", "")] = none) ∧
    CsrfFairingBuilder.finalize b pe s = Except.error () := by
  have hgen : ∀ (b2 : CsrfFairingBuilder) (pe2 : String → String) (s2 : List Nat),
      CsrfFairingBuilder.finalize b2 pe2 s2 = Except.error () ↔
        Path.map (Path.compile b2.default_target.fst) pe2 [("uri", "")] = none := by
    intro b2 pe2 s2
    cases hprobe : Path.map (Path.compile b2.default_target.fst) pe2 [("uri", "")] with
    | none => simp [CsrfFairingBuilder.finalize, hprobe]
    | some x => simp [CsrfFairingBuilder.finalize, hprobe]
  refine ⟨hgen, ?_⟩
  obtain ⟨n, hmem, hne⟩ := h
  have hnone : Path.map (Path.compile b.default_target.fst) pe [("uri", "")] = none := by
    unfold Path.map
    rw [substSegments_eq_none_of_capture_ne pe "" _ n hmem hne]
    rfl
  exact (hgen b pe s).mpr hnone

/-- Witness for C6: a default target with a foreign capture name is
rejected at configuration time. -/
theorem finalize_invalid_default_target_fails_witness :
    CsrfFairingBuilder.finalize
        { CsrfFairingBuilder.new with default_target := ("/<foo>", Method.get) }
        (fun s => s) [] = Except.error () :=
  (finalize_invalid_default_target_fails
      { CsrfFairingBuilder.new with default_target := ("/<foo>", Method.get) }
      (fun s => s) [] ⟨"foo", by decide, by decide⟩).2

/-- C7: a response whose content type is present and not HTML is left
unchanged by on_response. -/
theorem onResponse_non_html_bypass (f : CsrfFairing)
    (inject : String → List Nat → List Nat) (guardToken : Option String)
    (request : Request) (response : Response) (ct : ContentType)
    (h1 : response.content_type = some ct) (h2 : ct.isHtml = false) :
    onResponse f inject guardToken request response = response := by
  simp [onResponse, h1, h2]

/-- Witness for C7: a non-HTML sized response is untouched. -/
theorem onResponse_non_html_bypass_witness :
    onResponse testFairing (fun _ bytes => bytes ++ [9]) (some "T")
        { method := Method.get, uri := "/x", cookies := [] }
        { content_type := some { isHtml := false }, body := some (Body.sized [1] 1) } =
      { content_type := some { isHtml := false }, body := some (Body.sized [1] 1) } :=
  onResponse_non_html_bypass testFairing (fun _ bytes => bytes ++ [9]) (some "T")
    { method := Method.get, uri := "/x", cookies := [] }
    { content_type := some { isHtml := false }, body := some (Body.sized [1] 1) }
    { isHtml := false } rfl rfl

/-- C8: a response to a request whose URI starts with one of the
configured excluded prefixes is left unchanged by on_response. -/
theorem onResponse_excluded_prefix_bypass (f : CsrfFairing)
    (inject : String → List Nat → List Nat) (guardToken : Option String)
    (request : Request) (response : Response)
    (h : ∃ pre ∈ f.auto_insert_disable_prefixes, strStartsWith request.uri pre = true) :
    onResponse f inject guardToken request response = response := by
  have hany : f.auto_insert_disable_prefixes.any
      (fun pre => strStartsWith request.uri pre) = true := by
    rcases h with ⟨pre, hmem, hsw⟩
    exact List.any_eq_true.mpr ⟨pre, hmem, hsw⟩
  unfold onResponse
  by_cases h1 : (match response.content_type with
      | some ct => !ct.isHtml
      | none => false) = true
  · rw [if_pos h1]
  · rw [if_neg h1, if_pos hany]

/-- Witness for C8: an HTML response under the excluded prefix /api is
untouched. -/
theorem onResponse_excluded_prefix_bypass_witness :
    onResponse apiFairing (fun _ bytes => bytes ++ [9]) (some "T")
        { method := Method.get, uri := "/api/v1", cookies := [] }
        { content_type := some { isHtml := true }, body := some (Body.sized [1] 1) } =
      { content_type := some { isHtml := true }, body := some (Body.sized [1] 1) } :=
  onResponse_excluded_prefix_bypass apiFairing (fun _ bytes => bytes ++ [9]) (some "T")
    { method := Method.get, uri := "/api/v1", cookies := [] }
    { content_type := some { isHtml := true }, body := some (Body.sized [1] 1) }
    ⟨"/api", by decide, by decide⟩

/-- Whether substitution under a singleton uri capture set succeeds depends
neither on the bound value nor on the percent encoder. -/
theorem substSegments_isSome_eq (pe₁ pe₂ : String → String) (v₁ v₂ : String)
    (l : List Segment) :
    (substSegments pe₁ [("uri", v₁)] l).isSome =
      (substSegments pe₂ [("uri", v₂)] l).isSome := by
  induction l with
  | nil => rfl
  | cons s rest ih =>
    cases s with
    | literal t =>
      cases h1 : substSegments pe₁ [("uri", v₁)] rest <;>
        cases h2 : substSegments pe₂ [("uri", v₂)] rest <;>
          simp_all [substSegments, Segment.subst]
    | capture n =>
      by_cases hn : n = "uri"
      · have l1 : List.lookup n [("uri", v₁)] = some v₁ := by simp [List.lookup, hn]
        have l2 : List.lookup n [("uri", v₂)] = some v₂ := by simp [List.lookup, hn]
        cases h1 : substSegments pe₁ [("uri", v₁)] rest <;>
          cases h2 : substSegments pe₂ [("uri", v₂)] rest <;>
            simp_all [substSegments, Segment.subst, l1, l2]
      · have hbeq : (n == "uri") = false := beq_eq_false_iff_ne.mpr hn
        have l1 : List.lookup n [("uri", v₁)] = none := by simp [List.lookup, hbeq]
        have l2 : List.lookup n [("uri", v₂)] = none := by simp [List.lookup, hbeq]
        simp [substSegments, Segment.subst, l1, l2]

/-- Whether template generation under a singleton uri capture set succeeds
depends neither on the bound value nor on the percent encoder. -/
theorem pathMap_isSome_eq (p : Path) (pe₁ pe₂ : String → String) (v₁ v₂ : String) :
    (Path.map p pe₁ [("uri", v₁)]).isSome = (Path.map p pe₂ [("uri", v₂)]).isSome := by
  have hsub := substSegments_isSome_eq pe₁ pe₂ v₁ v₂ p.segments
  unfold Path.map
  cases h1 : substSegments pe₁ [("uri", v₁)] p.segments <;>
    cases h2 : substSegments pe₂ [("uri", v₂)] p.segments <;>
      simp_all

/-- C9: for a fairing produced by a successful finalize, the unwrap in the
default-target fallback of on_request never panics: every defaultRewrite
decision carries an actual URI, because finalize only succeeds when the
default-target template generates under a capture set containing only the
reserved name uri. -/
theorem onRequest_defaultRewrite_isSome (b : CsrfFairingBuilder)
    (pe : String → String) (s : List Nat) (f : CsrfFairing)
    (h : CsrfFairingBuilder.finalize b pe s = Except.ok f) :
    ∀ (T C : Type) (ext : Externals T C) (request : Request) (d : Data)
      (o : Option String) (m : Method),
      (onRequest f ext request d).decision = Decision.defaultRewrite o m →
      o.isSome = true := by
  simp only [CsrfFairingBuilder.finalize] at h
  by_cases hprobe :
      (Path.map (Path.compile b.default_target.fst) pe [("uri", "")]).isNone = true
  · rw [if_pos hprobe] at h
    exact absurd h (by simp)
  · rw [if_neg hprobe] at h
    injection h with hf
    have hdt : f.default_target.fst = Path.compile b.default_target.fst := by
      rw [← hf]
    intro T C ext request d o m hdec
    by_cases hsafe : isSafeMethod request.method = true
    · have hs : (onRequest f ext request d).decision = Decision.safe := by
        simp [onRequest, hsafe]
      rw [hs] at hdec
      exact absurd hdec (by simp)
    · have hsafe2 : isSafeMethod request.method = false := by simpa using hsafe
      rw [onRequest_decision_eq f ext request d hsafe2] at hdec
      by_cases hv : verifiedPair ext (tokenOf ext d) (cookieOf ext request) = true
      · rw [if_pos hv] at hdec
        exact absurd hdec (by simp)
      · rw [if_neg hv] at hdec
        cases hr : routeExceptions ext.percent_encode f.exceptions request.uri with
        | some pr =>
          rw [hr] at hdec
          cases pr
          exact absurd hdec (by simp)
        | none =>
          rw [hr] at hdec
          simp only [Decision.defaultRewrite.injEq] at hdec
          rw [← hdec.1, hdt]
          rw [pathMap_isSome_eq (Path.compile b.default_target.fst)
            ext.percent_encode pe (ext.percent_encode request.uri) ""]
          cases hp : Path.map (Path.compile b.default_target.fst) pe [("uri", "")] with
          | none =>
            rw [hp] at hprobe
            exact absurd rfl hprobe
          | some x => rfl

/-- Witness for C9: the default fairing obtained from finalize produces a
defaultRewrite carrying an actual URI. -/
theorem onRequest_defaultRewrite_isSome_witness : (Option.some "/").isSome = true :=
  onRequest_defaultRewrite_isSome CsrfFairingBuilder.new (fun s => s) [] testFairing rfl
    Nat Nat natExt { method := Method.post, uri := "/x", cookies := [] } { peek := none }
    (some "/") Method.get (by decide)

end RocketCsrf
